import Mathlib

/-!
Shallow embedding of `src/lib/BaseCounter.js` (jahidulpabelislam/counters).

The class `BaseCounter` resolves user options over defaults, lists all
repositories through a paginated API, and aggregates per-repo commit counts
into `{projects, commits}` totals.  JavaScript runtime values relevant to the
option resolution and the HTTP accessor are modelled by the inductive
`JSValue`; the unbounded recursion of `getRepos` is modelled with explicit
fuel; the in-place mutation of the shared `params` object (`params.page++`)
is modelled by threading the params record through and returning its final
state; the number of page fetches performed is returned alongside, as an
observation.  The HTTP transport (axios) is external: its outcome is an input
(`AxiosOutcome`), and at the lister's boundary the accessor is a function
`Params → Option (List R)` where `none` stands for the falsy sentinel
`false`.  JavaScript `Date` objects are modelled as `Option Int` (`none` is
an Invalid Date, whose comparisons are all false, matching NaN semantics).
-/

namespace Counters

/-- JavaScript runtime values, restricted to the shapes this program handles
(numbers are integral here: commit counts, pages and timestamps). -/
inductive JSValue where
  | undef
  | nullV
  | bool (b : Bool)
  | num (n : Int)
  | str (s : String)
  | arr (xs : List JSValue)
  | obj (fields : List (String × JSValue))

/-- JavaScript `typeof` on the modelled values. -/
def typeofJS : JSValue → String
  | .undef => "undefined"
  | .nullV => "object"
  | .bool _ => "boolean"
  | .num _ => "number"
  | .str _ => "string"
  | .arr _ => "object"
  | .obj _ => "object"

/-- JavaScript truthiness on the modelled values: `undefined`, `null`,
`false`, `0` and `""` are falsy; arrays and objects are always truthy. -/
def jsTruthy : JSValue → Bool
  | .undef => false
  | .nullV => false
  | .bool b => b
  | .num n => n != 0
  | .str s => s != ""
  | .arr _ => true
  | .obj _ => true

/-- Embedding of `BaseCounter.getOptionValue(options, option, defaultValue)`
(src/lib/BaseCounter.js lines 40-47): the user value is used when the key is
present and `typeof options[option] === typeof defaultValue`, otherwise the
default.  A JS object is modelled as an association list with unique keys;
`hasOwnProperty` plus member read is `List.lookup`. -/
def getOptionValue (options : List (String × JSValue)) (option : String)
    (defaultValue : JSValue) : JSValue :=
  match options.lookup option with
  | some v => if typeofJS v = typeofJS defaultValue then v else defaultValue
  | none => defaultValue

/-- Embedding of `BaseCounter.getDefaultOptions()` (lines 49-59). -/
def getDefaultOptions : List (String × JSValue) :=
  [("username", .str ""),
   ("accessToken", .str ""),
   ("userEmailAddresses", .arr []),
   ("userNames", .arr []),
   ("fromDate", .str ""),
   ("untilDate", .str ""),
   ("minCommits", .num 1)]

/-- Embedding of the option-resolution loop of the constructor (lines 21-28):
for each key of the defaults mapping, the resolved configuration binds that
key to `getOptionValue options key default`. -/
def resolveOptions (options : List (String × JSValue))
    (defaults : List (String × JSValue)) : List (String × JSValue) :=
  defaults.map fun kv => (kv.1, getOptionValue options kv.1 kv.2)

/-- Outcome of one axios call: the promise resolves with a response body, or
rejects (transport failure or non-2xx status); a rejection optionally carries
the structured payload `error.response.data`. -/
inductive AxiosOutcome where
  | success (data : JSValue)
  | failure (err : Option JSValue)

/-- Embedding of `getFromAPI(endpoint, params, extraOptions)` (lines 76-100).
The transport itself is external, so its outcome is an input.  Returns the
result value together with the log lines emitted (each a message string plus
the logged error payload).  On success the body is returned unless falsy
(`response.data || false`); on a caught error the sentinel `false` is
returned and a diagnostic is logged.  The function is total: every outcome
maps to a plain value, which is the embedding of never throwing to the
caller. -/
def getFromAPI (endpoint : String) (params : List (String × JSValue))
    (outcome : AxiosOutcome) : JSValue × List (String × JSValue) :=
  match outcome with
  | .success data => (if jsTruthy data then data else .bool false, [])
  | .failure err =>
      let errorString : JSValue :=
        match err with
        | some d => if jsTruthy d then d else .str ""
        | none => .str ""
      (.bool false,
       [("Failed call to " ++ endpoint ++ " with error:", errorString)])

/-- A JavaScript `Date`: valid (milliseconds since epoch) or Invalid Date.
Comparisons against an Invalid Date (NaN time value) are always false. -/
abbrev JSDate := Option Int

/-- JavaScript `<` on Date objects: false whenever either side is an Invalid
Date (NaN comparison semantics). -/
def jsDateLt : JSDate → JSDate → Bool
  | some a, some b => decide (a < b)
  | _, _ => false

/-- The listing page parameters object: the `page` field plus the
platform-specific filter fields the core never touches. -/
structure Params where
  page : Int
  others : List (String × JSValue)

/-- The early-bail condition of `getRepos` (lines 123-135): a fromDate was
supplied, the page is non-empty, and the parsed configured updated-date of
the LAST item of the page is strictly before fromDate.  `repoDate r` is the
value of `new Date(lastRepo[this.repoUpdatedDateField])`: `none` when the
field is missing or not date-parsable. -/
def cutoffTriggered {R : Type} (repoDate : R → JSDate) (fromDate : Option JSDate)
    (repos : List R) : Bool :=
  match fromDate, repos.getLast? with
  | some fd, some lastRepo => (repos.length != 0) && jsDateLt (repoDate lastRepo) fd
  | _, _ => false

/-- Embedding of the recursive `getRepos(endpoint, params, fromDate)`
(lines 114-145).  The accessor is abstracted to
`fetch : Params → Option (List R)`; `none` is the falsy sentinel `false`
from `getFromAPI`.  The in-place `params.page++` is modelled by threading
the params record: the result is the repo list, the final state of the
params object, and the number of fetches performed.  Fuel bounds the
recursion depth (the source has no bound); all theorems below hold for
every sufficient fuel. -/
def getRepos {R : Type} (fetch : Params → Option (List R)) (repoDate : R → JSDate)
    (itemsPerPage : Nat) (fromDate : Option JSDate) :
    Nat → Params → List R × Params × Nat
  | 0, params => ([], params, 0)
  | fuel + 1, params =>
    match fetch params with
    | none => ([], params, 1)
    | some repos =>
      if cutoffTriggered repoDate fromDate repos then
        (repos, params, 1)
      else if repos.length = itemsPerPage then
        let next := getRepos fetch repoDate itemsPerPage fromDate fuel
          { params with page := params.page + 1 }
        (repos ++ next.1, next.2.1, next.2.2 + 1)
      else
        (repos, params, 1)

/-- The state of one counter instance at the lister/aggregator boundary:
the resolved settings the generic core reads, the platform-supplied listing
configuration, and the pluggable per-repo commit-count strategy
(`getUsersRepoCommitsCountAll`, a stub returning 0 in the base class). -/
structure Counter (R : Type) where
  fetch : Params → Option (List R)
  repoDate : R → JSDate
  itemsPerPage : Nat
  reposParams : Params
  fromDate : String
  minCommits : Int
  countCommits : R → Int

/-- Blankness test of `getAllRepos`: `fromDate.trim() !== ""` fails exactly
when every character of the string is whitespace, which is how the trim-based
test is modelled (character-level, so that it evaluates by reduction). -/
def isBlank (s : String) : Bool :=
  s.toList.all fun ch => ch.isWhitespace

/-- The fromDate argument `getAllRepos` builds (lines 150-156): a Date object
only when the fromDate setting is non-blank; `jsNewDate` is the host date
parser applied by `new Date(this.fromDate)`. -/
def fromDateObj {R : Type} (jsNewDate : String → JSDate) (c : Counter R) :
    Option JSDate :=
  if isBlank c.fromDate then none else some (jsNewDate c.fromDate)

/-- Embedding of `getAllRepos()` (lines 150-157): triggers the first
recursive listing call on `this.reposEndpoint` / `this.reposParams`. -/
def getAllRepos {R : Type} (jsNewDate : String → JSDate) (c : Counter R)
    (fuel : Nat) : List R × Params × Nat :=
  getRepos c.fetch c.repoDate c.itemsPerPage (fromDateObj jsNewDate c) fuel
    c.reposParams

/-- Embedding of the accumulation loop of `get()` (lines 168-178): walk the
repos in listing order; a count > 0 is added to `commits`, and additionally
increments `projects` when it is ≥ minCommits. -/
def aggregateLoop {R : Type} (countCommits : R → Int) (minCommits : Int) :
    List R → Int → Int → Int × Int
  | [], projects, commits => (projects, commits)
  | repo :: rest, projects, commits =>
    let c := countCommits repo
    if 0 < c then
      aggregateLoop countCommits minCommits rest
        (if minCommits ≤ c then projects + 1 else projects)
        (commits + c)
    else
      aggregateLoop countCommits minCommits rest projects commits

/-- The `{projects, commits}` record `get()` returns (lines 180-183). -/
structure AggregateResult where
  projects : Int
  commits : Int
deriving DecidableEq

/-- Embedding of `get()` (lines 162-184): list all repos, fold the commit
counts, return the totals.  Because `getRepos` mutates `this.reposParams`
in place through the shared object reference, the instance state after the
call is returned as well: the counter with its reposParams replaced by the
final params state. -/
def get {R : Type} (jsNewDate : String → JSDate) (c : Counter R) (fuel : Nat) :
    AggregateResult × Counter R :=
  let listed := getAllRepos jsNewDate c fuel
  let totals := aggregateLoop c.countCommits c.minCommits listed.1 0 0
  ({ projects := totals.1, commits := totals.2 },
   { c with reposParams := listed.2.1 })

/-- Mocked accessor serving pages of sizes 100, 100, 37 (pages past the
third are empty), used for the concrete pagination scenarios. -/
def pagesFetch : Params → Option (List Nat) :=
  fun p =>
    if p.page = 1 then some (List.replicate 100 0)
    else if p.page = 2 then some (List.replicate 100 0)
    else if p.page = 3 then some (List.replicate 37 0)
    else some []

/-- Counter whose listing yields one short page of three repos with commit
counts 0, 5 and 2, with minCommits 3 (repos are their own counts). -/
def exampleCounter1 : Counter Int :=
  { fetch := fun _ => some [0, 5, 2], repoDate := fun _ => none,
    itemsPerPage := 100, reposParams := ⟨1, []⟩, fromDate := "",
    minCommits := 3, countCommits := fun x => x }

/-- Counter whose listing yields one short page of two repos with commit
count 0 each. -/
def exampleCounter2 : Counter Int :=
  { fetch := fun _ => some [0, 0], repoDate := fun _ => none,
    itemsPerPage := 100, reposParams := ⟨1, []⟩, fromDate := "",
    minCommits := 3, countCommits := fun x => x }

/-- Counter over the three-page mock `pagesFetch`, counting one commit per
repo: used to exercise pagination through `get()`. -/
def idemCounter : Counter Nat :=
  { fetch := pagesFetch, repoDate := fun _ => none, itemsPerPage := 100,
    reposParams := ⟨1, []⟩, fromDate := "", minCommits := 1,
    countCommits := fun _ => 1 }

/-- Counter whose accessor always returns the failure sentinel. -/
def failCounter : Counter Nat :=
  { fetch := fun _ => none, repoDate := fun _ => none, itemsPerPage := 100,
    reposParams := ⟨1, []⟩, fromDate := "", minCommits := 1,
    countCommits := fun _ => 1 }

/-! Helper lemmas: the four one-step behaviours of `getRepos`, the closed
form of the aggregation loop, and the frame property of the params state. -/

theorem getRepos_step_fail {R : Type} (fetch : Params → Option (List R))
    (repoDate : R → JSDate) (ipp : Nat) (fromDate : Option JSDate)
    (fuel : Nat) (params : Params) (h : fetch params = none) :
    getRepos fetch repoDate ipp fromDate (fuel + 1) params = ([], params, 1) := by
  simp [getRepos, h]

theorem getRepos_step_cut {R : Type} (fetch : Params → Option (List R))
    (repoDate : R → JSDate) (ipp : Nat) (fromDate : Option JSDate)
    (fuel : Nat) (params : Params) (repos : List R)
    (h : fetch params = some repos)
    (hcut : cutoffTriggered repoDate fromDate repos = true) :
    getRepos fetch repoDate ipp fromDate (fuel + 1) params = (repos, params, 1) := by
  simp [getRepos, h, hcut]

theorem getRepos_step_full {R : Type} (fetch : Params → Option (List R))
    (repoDate : R → JSDate) (ipp : Nat) (fromDate : Option JSDate)
    (fuel : Nat) (params : Params) (repos : List R)
    (h : fetch params = some repos)
    (hcut : cutoffTriggered repoDate fromDate repos = false)
    (hlen : repos.length = ipp) :
    getRepos fetch repoDate ipp fromDate (fuel + 1) params =
      (repos ++ (getRepos fetch repoDate ipp fromDate fuel
          { params with page := params.page + 1 }).1,
       (getRepos fetch repoDate ipp fromDate fuel
          { params with page := params.page + 1 }).2.1,
       (getRepos fetch repoDate ipp fromDate fuel
          { params with page := params.page + 1 }).2.2 + 1) := by
  simp [getRepos, h, hcut, hlen]

theorem getRepos_step_short {R : Type} (fetch : Params → Option (List R))
    (repoDate : R → JSDate) (ipp : Nat) (fromDate : Option JSDate)
    (fuel : Nat) (params : Params) (repos : List R)
    (h : fetch params = some repos)
    (hcut : cutoffTriggered repoDate fromDate repos = false)
    (hlen : repos.length ≠ ipp) :
    getRepos fetch repoDate ipp fromDate (fuel + 1) params = (repos, params, 1) := by
  simp [getRepos, h, hcut, hlen]

theorem aggregateLoop_closed {R : Type} (cc : R → Int) (mc : Int)
    (repos : List R) (p cm : Int) :
    aggregateLoop cc mc repos p cm =
      (p + ((repos.filter fun r => decide (0 < cc r) && decide (mc ≤ cc r)).length : Int),
       cm + ((repos.map cc).filter fun x => decide (0 < x)).sum) := by
  induction repos generalizing p cm with
  | nil => simp [aggregateLoop]
  | cons r rest ih =>
    by_cases h1 : 0 < cc r
    · by_cases h2 : mc ≤ cc r
      · simp [aggregateLoop, h1, h2, ih]
        constructor <;> ring
      · simp [aggregateLoop, h1, h2, ih]
        ring
    · have h2 : ¬ (decide (0 < cc r) && decide (mc ≤ cc r)) = true := by
        simp [h1]
      simp [aggregateLoop, h1, ih, h2]

theorem getRepos_frame {R : Type} (fetch : Params → Option (List R))
    (repoDate : R → JSDate) (ipp : Nat) (fromDate : Option JSDate)
    (fuel : Nat) (params : Params) :
    ((getRepos fetch repoDate ipp fromDate fuel params).2.1).others = params.others
    ∧ ∃ k : Nat,
      ((getRepos fetch repoDate ipp fromDate fuel params).2.1).page = params.page + k := by
  induction fuel generalizing params with
  | zero => exact ⟨rfl, 0, by simp [getRepos]⟩
  | succ fuel ih =>
    match hf : fetch params with
    | none => simp [getRepos, hf]
    | some repos =>
      by_cases hcut : cutoffTriggered repoDate fromDate repos = true
      · simp [getRepos, hf, hcut]
      · by_cases hlen : repos.length = ipp
        · have hmain := ih { params with page := params.page + 1 }
          refine ⟨?_, ?_⟩
          · rw [getRepos_step_full fetch repoDate ipp fromDate fuel params repos hf
              (by simpa using hcut) hlen]
            exact hmain.1
          · rw [getRepos_step_full fetch repoDate ipp fromDate fuel params repos hf
              (by simpa using hcut) hlen]
            obtain ⟨k, hk⟩ := hmain.2
            exact ⟨k + 1, by simp [hk]; ring⟩
        · simp [getRepos, hf, hcut, hlen]

/-! Claim theorems. -/

set_option maxRecDepth 10000

/-- C1: for every counter (hence every finite listed repo sequence and every
per-repo commit-count function), get() returns commits equal to the sum of
all per-repo counts that are > 0 (including those below minCommits) and
projects equal to the number of repos whose count is > 0 and ≥ minCommits;
a repo with count 0 contributes to neither.  For counts [0, 5, 2] with
minCommits 3 the result is projects = 1 and commits = 7; for [0, 0] it is
projects = 0 and commits = 0. -/
theorem claim1_get_aggregation {R : Type} (jsNewDate : String → JSDate)
    (c : Counter R) (fuel : Nat) :
    ((get jsNewDate c fuel).1).commits =
      (((getAllRepos jsNewDate c fuel).1.map c.countCommits).filter
        fun x => decide (0 < x)).sum
    ∧ ((get jsNewDate c fuel).1).projects =
      (((getAllRepos jsNewDate c fuel).1.filter fun r =>
          decide (0 < c.countCommits r) &&
          decide (c.minCommits ≤ c.countCommits r)).length : Int)
    ∧ (get (fun _ => none) exampleCounter1 1).1 = ⟨1, 7⟩
    ∧ (get (fun _ => none) exampleCounter2 1).1 = ⟨0, 0⟩ := by
  refine ⟨?_, ?_, by decide, by decide⟩
  · simp [get, aggregateLoop_closed]
  · simp [get, aggregateLoop_closed]

/-- C2: if a fetched page's length equals itemsPerPage and no date cutoff
triggered, getRepos increments params.page, fetches the next page and
concatenates its results after the current page's in order; a page shorter
than itemsPerPage ends the walk with the accumulated results.  For mocked
pages of sizes [100, 100, 37] with no fromDate, exactly 237 repos are
returned after exactly 3 fetches. -/
theorem claim2_pagination {R : Type} (fetch : Params → Option (List R))
    (repoDate : R → JSDate) (ipp : Nat) (fromDate : Option JSDate)
    (fuel : Nat) (params : Params) (page : List R) :
    (fetch params = some page → cutoffTriggered repoDate fromDate page = false →
      page.length = ipp →
      getRepos fetch repoDate ipp fromDate (fuel + 1) params =
        (page ++ (getRepos fetch repoDate ipp fromDate fuel
            { params with page := params.page + 1 }).1,
         (getRepos fetch repoDate ipp fromDate fuel
            { params with page := params.page + 1 }).2.1,
         (getRepos fetch repoDate ipp fromDate fuel
            { params with page := params.page + 1 }).2.2 + 1))
    ∧ (fetch params = some page → cutoffTriggered repoDate fromDate page = false →
      page.length ≠ ipp →
      getRepos fetch repoDate ipp fromDate (fuel + 1) params = (page, params, 1))
    ∧ (getRepos pagesFetch (fun _ => none) 100 none 10 ⟨1, []⟩).1.length = 237
    ∧ (getRepos pagesFetch (fun _ => none) 100 none 10 ⟨1, []⟩).2.2 = 3 := by
  refine ⟨?_, ?_, by decide, by decide⟩
  · exact getRepos_step_full fetch repoDate ipp fromDate fuel params page
  · exact getRepos_step_short fetch repoDate ipp fromDate fuel params page

/-- C2 witness: on the three-page mock, a fetch of the short third page
returns just that page after one fetch. -/
theorem claim2_pagination_witness :
    getRepos pagesFetch (fun _ => none) 100 none 2 ⟨3, []⟩ =
      (List.replicate 37 0, ⟨3, []⟩, 1) :=
  (claim2_pagination pagesFetch (fun _ => none) 100 none 1 ⟨3, []⟩
    (List.replicate 37 0)).2.1 (by decide) rfl (by decide)

/-- C3: on a non-empty page, when a fromDate bound is supplied and the
parsed updated-date of the last item is strictly earlier than fromDate,
getRepos returns the page immediately after a single fetch, with params
untouched — the next page is never fetched. -/
theorem claim3_dateCutoff {R : Type} (fetch : Params → Option (List R))
    (repoDate : R → JSDate) (ipp : Nat) (fd : Int) (fuel : Nat)
    (params : Params) (repos : List R) (lastRepo : R) (d : Int)
    (hfetch : fetch params = some repos)
    (hlast : repos.getLast? = some lastRepo)
    (hdate : repoDate lastRepo = some d)
    (hlt : d < fd) :
    getRepos fetch repoDate ipp (some (some fd)) (fuel + 1) params =
      (repos, params, 1) := by
  have hne : repos ≠ [] := by
    intro h
    subst h
    simp at hlast
  have hcut : cutoffTriggered repoDate (some (some fd)) repos = true := by
    simp [cutoffTriggered, hlast, hdate, jsDateLt, hlt, hne]
  exact getRepos_step_cut fetch repoDate ipp (some (some fd)) fuel params repos
    hfetch hcut

/-- C3 witness: a page whose last item's date 3 is before fromDate 5 is
returned after one fetch. -/
theorem claim3_dateCutoff_witness :
    getRepos (fun _ => some [(10 : Int), 9, 3]) (fun r => some r) 100
      (some (some 5)) 4 ⟨1, []⟩ = ([10, 9, 3], ⟨1, []⟩, 1) :=
  claim3_dateCutoff (fun _ => some [(10 : Int), 9, 3]) (fun r => some r) 100 5 3
    ⟨1, []⟩ [10, 9, 3] 3 3 rfl rfl rfl (by decide)

/-- C4: getFromAPI never propagates an exception: it is a total function of
the transport outcome, and on any transport or non-2xx failure — whatever
the error payload — it logs exactly one diagnostic line and returns the
sentinel `false`, for every endpoint and every params object. -/
theorem claim4_failure_sentinel (endpoint : String)
    (params : List (String × JSValue)) (err : Option JSValue) :
    (getFromAPI endpoint params (AxiosOutcome.failure err)).1 = JSValue.bool false
    ∧ (getFromAPI endpoint params (AxiosOutcome.failure err)).2.length = 1 := by
  cases err <;> simp [getFromAPI]

/-- C5: the resolved configuration has exactly the keys of the defaults
mapping, and for each key the user-supplied value is used precisely when the
user mapping contains the key with a value of the same JS runtime type as
the default; otherwise (type mismatch, or key absent) the default is used,
with no error in any case. -/
theorem claim5_option_resolution (options defaults : List (String × JSValue)) :
    (resolveOptions options defaults).map Prod.fst = defaults.map Prod.fst
    ∧ (∀ option v defaultValue, options.lookup option = some v →
        typeofJS v = typeofJS defaultValue →
        getOptionValue options option defaultValue = v)
    ∧ (∀ option v defaultValue, options.lookup option = some v →
        typeofJS v ≠ typeofJS defaultValue →
        getOptionValue options option defaultValue = defaultValue)
    ∧ (∀ option defaultValue, options.lookup option = none →
        getOptionValue options option defaultValue = defaultValue) := by
  refine ⟨?_, ?_, ?_, ?_⟩
  · simp [resolveOptions]
  · intro o v dv h ht
    simp [getOptionValue, h, ht]
  · intro o v dv h ht
    simp [getOptionValue, h, ht]
  · intro o dv h
    simp [getOptionValue, h]

/-- C5 witness: a same-type override is taken, a type-mismatched override is
ignored, and a missing key falls back to the default. -/
theorem claim5_option_resolution_witness :
    getOptionValue [("minCommits", JSValue.num 5)] "minCommits" (JSValue.num 1)
      = JSValue.num 5
    ∧ getOptionValue [("minCommits", JSValue.str "5")] "minCommits" (JSValue.num 1)
      = JSValue.num 1
    ∧ getOptionValue [] "minCommits" (JSValue.num 1) = JSValue.num 1 :=
  ⟨(claim5_option_resolution [("minCommits", JSValue.num 5)] getDefaultOptions).2.1
      "minCommits" (JSValue.num 5) (JSValue.num 1) rfl rfl,
   (claim5_option_resolution [("minCommits", JSValue.str "5")] getDefaultOptions).2.2.1
      "minCommits" (JSValue.str "5") (JSValue.num 1) rfl (by simp [typeofJS]),
   (claim5_option_resolution [] getDefaultOptions).2.2.2
      "minCommits" (JSValue.num 1) rfl⟩

/-- C6: when the accessor returns the failure sentinel on the very first
page fetch, getRepos returns the empty sequence and get() returns
projects = 0, commits = 0; the caller still receives a well-formed result. -/
theorem claim6_total_failure {R : Type} (jsNewDate : String → JSDate)
    (c : Counter R) (fuel : Nat) (h : c.fetch c.reposParams = none) :
    (getAllRepos jsNewDate c fuel).1 = []
    ∧ (get jsNewDate c fuel).1 = ⟨0, 0⟩ := by
  have hrep : (getAllRepos jsNewDate c fuel).1 = [] := by
    cases fuel with
    | zero => simp [getAllRepos, getRepos]
    | succ n =>
      unfold getAllRepos
      rw [getRepos_step_fail c.fetch c.repoDate c.itemsPerPage
        (fromDateObj jsNewDate c) n c.reposParams h]
  exact ⟨hrep, by simp [get, getAllRepos] at hrep ⊢; simp [hrep, aggregateLoop]⟩

/-- C6 witness: the always-failing counter yields no repos and zero totals. -/
theorem claim6_total_failure_witness :
    (getAllRepos (fun _ => none) failCounter 5).1 = []
    ∧ (get (fun _ => none) failCounter 5).1 = ⟨0, 0⟩ :=
  claim6_total_failure (fun _ => none) failCounter 5 rfl

/-- C7 counterexample: get() is not idempotent on the same instance.  With
the three-page mock (100, 100, 37 repos, one commit each), the first call
returns 237/237, but it leaves the shared reposParams.page at 3, so the
second call refetches only page 3 and returns 37/37. -/
theorem claim7_counterexample :
    (get (fun _ => none) idemCounter 10).1 = ⟨237, 237⟩
    ∧ (get (fun _ => none) ((get (fun _ => none) idemCounter 10).2) 10).1 = ⟨37, 37⟩
    ∧ ¬ ((get (fun _ => none) idemCounter 10).1 =
         (get (fun _ => none) ((get (fun _ => none) idemCounter 10).2) 10).1) := by
  refine ⟨by decide, by decide, by decide⟩

/-- C7 amended: calling get() twice yields identical results whenever the
first call advances no page — in particular when the first page fetch
returns a page shorter than itemsPerPage with no date cutoff, so that the
shared params object is left untouched. -/
theorem claim7_idempotent_no_advance {R : Type} (jsNewDate : String → JSDate)
    (c : Counter R) (fuel : Nat) (page : List R)
    (hfetch : c.fetch c.reposParams = some page)
    (hcut : cutoffTriggered c.repoDate (fromDateObj jsNewDate c) page = false)
    (hshort : page.length ≠ c.itemsPerPage) :
    (get jsNewDate ((get jsNewDate c (fuel + 1)).2) (fuel + 1)).1 =
      (get jsNewDate c (fuel + 1)).1 := by
  have hrep : getRepos c.fetch c.repoDate c.itemsPerPage
      (fromDateObj jsNewDate c) (fuel + 1) c.reposParams = (page, c.reposParams, 1) :=
    getRepos_step_short c.fetch c.repoDate c.itemsPerPage
      (fromDateObj jsNewDate c) fuel c.reposParams page hfetch hcut hshort
  have hc2 : (get jsNewDate c (fuel + 1)).2 = c := by
    simp [get, getAllRepos, hrep]
  rw [hc2]

/-- C7 amended witness: on a counter whose single page is short, two calls
agree. -/
theorem claim7_idempotent_witness :
    (get (fun _ => none) ((get (fun _ => none) exampleCounter1 3).2) 3).1 =
      (get (fun _ => none) exampleCounter1 3).1 :=
  claim7_idempotent_no_advance (fun _ => none) exampleCounter1 2 [0, 5, 2]
    rfl (by decide) (by decide)

/-- C8: on a successful response, getFromAPI returns the body when it is
truthy and the sentinel `false` when the body is falsy — in particular for a
null body and for an empty-string body. -/
theorem claim8_success_body (endpoint : String)
    (params : List (String × JSValue)) (data : JSValue) :
    (jsTruthy data = true →
      (getFromAPI endpoint params (AxiosOutcome.success data)).1 = data)
    ∧ (jsTruthy data = false →
      (getFromAPI endpoint params (AxiosOutcome.success data)).1 = JSValue.bool false)
    ∧ (getFromAPI endpoint params (AxiosOutcome.success JSValue.nullV)).1
        = JSValue.bool false
    ∧ (getFromAPI endpoint params (AxiosOutcome.success (JSValue.str ""))).1
        = JSValue.bool false := by
  refine ⟨fun h => ?_, fun h => ?_, ?_, ?_⟩
  · simp [getFromAPI, h]
  · simp [getFromAPI, h]
  · simp [getFromAPI, jsTruthy]
  · simp [getFromAPI, jsTruthy]

/-- C8 witness: a truthy body (an empty array) is returned as-is, a falsy
body (the number 0) becomes the sentinel. -/
theorem claim8_success_body_witness :
    (getFromAPI "e" [] (AxiosOutcome.success (JSValue.arr []))).1 = JSValue.arr []
    ∧ (getFromAPI "e" [] (AxiosOutcome.success (JSValue.num 0))).1
        = JSValue.bool false :=
  ⟨(claim8_success_body "e" [] (JSValue.arr [])).1 rfl,
   (claim8_success_body "e" [] (JSValue.num 0)).2.1 rfl⟩

/-- C9: the only mutation performed on the page-parameters object is
incrementing its page field (by the number of extra pages walked): all other
fields are unchanged by getRepos and by get(). -/
theorem claim9_params_frame {R : Type} (fetch : Params → Option (List R))
    (repoDate : R → JSDate) (ipp : Nat) (fromDate : Option JSDate)
    (fuel : Nat) (params : Params) (jsNewDate : String → JSDate)
    (c : Counter R) :
    ((getRepos fetch repoDate ipp fromDate fuel params).2.1).others = params.others
    ∧ (∃ k : Nat, ((getRepos fetch repoDate ipp fromDate fuel params).2.1).page
        = params.page + k)
    ∧ ((get jsNewDate c fuel).2).reposParams.others = c.reposParams.others
    ∧ (∃ k : Nat, ((get jsNewDate c fuel).2).reposParams.page
        = c.reposParams.page + k) := by
  obtain ⟨h1, h2⟩ := getRepos_frame fetch repoDate ipp fromDate fuel params
  obtain ⟨h3, h4⟩ := getRepos_frame c.fetch c.repoDate c.itemsPerPage
    (fromDateObj jsNewDate c) fuel c.reposParams
  exact ⟨h1, h2, by simpa [get, getAllRepos] using h3,
    by simpa [get, getAllRepos] using h4⟩

/-- C10: with a fromDate bound supplied, a non-empty page whose last item
has a missing or unparsable updated-date (an Invalid Date) never triggers
the cutoff — the NaN comparison is falsy — so getRepos proceeds exactly as
if the item were in range: it recurses when the page is full and returns
the accumulated page otherwise, raising nothing. -/
theorem claim10_invalid_date {R : Type} (fetch : Params → Option (List R))
    (repoDate : R → JSDate) (ipp : Nat) (fd : JSDate) (fuel : Nat)
    (params : Params) (repos : List R) (lastRepo : R)
    (hfetch : fetch params = some repos)
    (hlast : repos.getLast? = some lastRepo)
    (hdate : repoDate lastRepo = none) :
    getRepos fetch repoDate ipp (some fd) (fuel + 1) params =
      if repos.length = ipp then
        (repos ++ (getRepos fetch repoDate ipp (some fd) fuel
            { params with page := params.page + 1 }).1,
         (getRepos fetch repoDate ipp (some fd) fuel
            { params with page := params.page + 1 }).2.1,
         (getRepos fetch repoDate ipp (some fd) fuel
            { params with page := params.page + 1 }).2.2 + 1)
      else (repos, params, 1) := by
  have hcut : cutoffTriggered repoDate (some fd) repos = false := by
    cases fd <;> simp [cutoffTriggered, hlast, hdate, jsDateLt]
  by_cases hlen : repos.length = ipp
  · rw [if_pos hlen]
    exact getRepos_step_full fetch repoDate ipp (some fd) fuel params repos
      hfetch hcut hlen
  · rw [if_neg hlen]
    exact getRepos_step_short fetch repoDate ipp (some fd) fuel params repos
      hfetch hcut hlen

/-- C10 witness: a short page whose last item has no parsable date, under a
fromDate bound, is returned whole with no early cutoff. -/
theorem claim10_invalid_date_witness :
    getRepos (fun _ => some [(1 : Int), 2, 3]) (fun _ => none) 100
      (some (some 5)) 4 ⟨1, []⟩ = ([1, 2, 3], ⟨1, []⟩, 1) := by
  have h := claim10_invalid_date (fun _ => some [(1 : Int), 2, 3]) (fun _ => none)
    100 (some 5) 3 ⟨1, []⟩ [1, 2, 3] 3 rfl rfl rfl
  rw [h]
  simp

end Counters
